import Mathlib

/-!
Shallow embedding of the ambiance-hub application: the SQL schema,
row-level-security (RLS) policies and SQL functions from the database
migrations, and the client-side handlers of the React components
(AmbiencePlayer, TrackUploader, AudioTrack).

Tables are modelled as lists of rows inside a `Db` record; SQL functions
and client handlers become Lean functions over `Db`.  UUIDs, emails and
track ids are `String`s; timestamps are `Nat`s; JSONB track-settings
documents are association lists from track id to {volume, enabled}.
-/

namespace AmbianceHub

/-- Enum app_role from the migration: CREATE TYPE public.app_role AS ENUM ('admin', 'user'). -/
inductive AppRole where
  | admin : AppRole
  | user : AppRole
deriving DecidableEq, Repr

/-- Row of public.user_roles (the surrogate id column is omitted; UNIQUE (user_id, role)
is carried as a hypothesis where a claim needs it). -/
structure RoleRow where
  user_id : String
  role : AppRole
deriving DecidableEq, Repr

/-- Row of auth.users as far as this app consults it (id, email). -/
structure AuthUser where
  id : String
  email : String
deriving DecidableEq, Repr

/-- Row of public.profiles (surrogate id and created_at omitted). -/
structure ProfileRow where
  user_id : String
  username : String
deriving DecidableEq, Repr

/-- Row of public.tracks. -/
structure TrackRow where
  id : String
  name : String
  file_url : String
  created_by : String
  created_at : Nat
deriving DecidableEq, Repr

/-- One entry of the JSONB track_settings document: { volume, enabled }. -/
structure TrackSetting where
  volume : Nat
  enabled : Bool
deriving DecidableEq, Repr

/-- The JSONB track_settings document: a sparse map from track id to TrackSetting,
modelled as an association list in JS-object key order. -/
abbrev TrackSettings := List (String × TrackSetting)

/-- Row of public.user_preferences (user_id UNIQUE, track_settings JSONB DEFAULT '\x7b\x7d'). -/
structure PrefRow where
  user_id : String
  track_settings : TrackSettings
  updated_at : Nat
deriving DecidableEq, Repr

/-- The database state: the four public tables, auth.users, and the names of the
objects stored in the public 'tracks' storage bucket. -/
structure Db where
  auth_users : List AuthUser
  user_roles : List RoleRow
  profiles : List ProfileRow
  tracks : List TrackRow
  user_preferences : List PrefRow
  storage_objects : List String
deriving DecidableEq, Repr

/-- SQL function public.has_role(_user_id, _role): SELECT EXISTS (SELECT 1 FROM
public.user_roles WHERE user_id = _user_id AND role = _role).  A pure lookup
(SECURITY DEFINER, STABLE, no side effects). -/
def has_role (roles : List RoleRow) (uid : String) (r : AppRole) : Bool :=
  roles.any fun row => row.user_id == uid && row.role == r

/-- The RLS admin check public.has_role(auth.uid(), 'admin') as seen by a request:
auth.uid() is NULL when there is no session, and has_role(NULL, _) finds no row. -/
def rlsAdmin (db : Db) (caller : Option String) : Bool :=
  match caller with
  | none => false
  | some uid => has_role db.user_roles uid AppRole.admin

/-- SQL function public.make_user_admin(user_email): look up the user id by email
in auth.users; if found and no (user, admin) row exists in user_roles, insert one. -/
def make_user_admin (db : Db) (user_email : String) : Db :=
  match db.auth_users.find? (fun u => u.email == user_email) with
  | none => db
  | some u =>
    if db.user_roles.any (fun row => row.user_id == u.id && row.role == AppRole.admin) then db
    else { db with user_roles := db.user_roles ++ [⟨u.id, AppRole.admin⟩] }

/-- Trigger function public.handle_new_user(): on INSERT into auth.users, insert a
profile (username = raw meta username, else email), a default 'user' role row, and
a user_preferences row; track_settings takes its column DEFAULT '\x7b\x7d', the empty map. -/
def handle_new_user (db : Db) (u : AuthUser) (metaUsername : Option String) (now : Nat) : Db :=
  { db with
    profiles := db.profiles ++ [⟨u.id, metaUsername.getD u.email⟩],
    user_roles := db.user_roles ++ [⟨u.id, AppRole.user⟩],
    user_preferences := db.user_preferences ++ [⟨u.id, [], now⟩] }

/-- JS object read prev[id] on a track_settings document. -/
def objGet (m : TrackSettings) (id : String) : Option TrackSetting :=
  (m.find? (fun p => p.1 == id)).map (fun p => p.2)

/-- JS object spread update { ...prev, [id]: v } on a track_settings document:
the value at an existing key is replaced in place (JS objects keep a present key
at its original position and hold each key at most once), a new key is appended
at the end. -/
def objSet : TrackSettings → String → TrackSetting → TrackSettings
  | [], id, v => [(id, v)]
  | p :: ps, id, v => if p.1 == id then (id, v) :: ps else p :: objSet ps id v

/-- AmbiencePlayer prop initialVolume: trackSettings[track.id]?.volume ?? 50. -/
def initialVolume (settings : TrackSettings) (id : String) : Nat :=
  ((objGet settings id).map TrackSetting.volume).getD 50

/-- AmbiencePlayer prop initialEnabled: trackSettings[track.id]?.enabled ?? false. -/
def initialEnabled (settings : TrackSettings) (id : String) : Bool :=
  ((objGet settings id).map TrackSetting.enabled).getD false

/-- New settings document built by AmbiencePlayer.handleVolumeChange:
{ ...prev, [id]: { ...prev[id], volume, enabled: prev[id]?.enabled ?? true } }. -/
def handleVolumeChange (prev : TrackSettings) (id : String) (volume : Nat) : TrackSettings :=
  objSet prev id ⟨volume, ((objGet prev id).map TrackSetting.enabled).getD true⟩

/-- New settings document built by AmbiencePlayer.handleEnabledChange:
{ ...prev, [id]: { ...prev[id], enabled, volume: prev[id]?.volume ?? 50 } }. -/
def handleEnabledChange (prev : TrackSettings) (id : String) (enabled : Bool) : TrackSettings :=
  objSet prev id ⟨((objGet prev id).map TrackSetting.volume).getD 50, enabled⟩

/-- Mount effects of one AudioTrack as rendered by AmbiencePlayer: the component
initialises its state from trackSettings[id]?.volume ?? 50 and
trackSettings[id]?.enabled ?? false, and on mount its effect on [volume] calls
onVolumeChange(id, volume) and then its effect on [enabled, volume] calls
onEnabledChange(id, enabled), so AmbiencePlayer runs handleVolumeChange followed
by handleEnabledChange with those initial values (each call also upserting the
resulting map via savePreferences) with no user interaction at all. -/
def mountAudioTrack (prev : TrackSettings) (id : String) : TrackSettings :=
  handleEnabledChange (handleVolumeChange prev id (initialVolume prev id)) id
    (initialEnabled prev id)

/-- Postgres upsert INSERT ... ON CONFLICT (user_id) DO UPDATE on user_preferences:
the conflicting row (unique by the user_id constraint) is overwritten, otherwise a
new row is inserted. -/
def upsertPref (rows : List PrefRow) (uid : String) (m : TrackSettings) (now : Nat) :
    List PrefRow :=
  match rows with
  | [] => [⟨uid, m, now⟩]
  | r :: rs =>
    if r.user_id == uid then { r with track_settings := m, updated_at := now } :: rs
    else r :: upsertPref rs uid m now

/-- AmbiencePlayer.savePreferences: if there is no user session it returns at once
(no write, no message); otherwise it upserts { user_id, track_settings, updated_at }
with conflict target user_id.  A backend failure leaves the table unchanged and is
only logged to the console.  The second component collects emitted messages. -/
def savePreferences (db : Db) (user : Option String) (newSettings : TrackSettings)
    (now : Nat) (backendFails : Bool) : Db × List String :=
  match user with
  | none => (db, [])
  | some uid =>
    if backendFails then (db, ["Error saving preferences"])
    else ({ db with user_preferences := upsertPref db.user_preferences uid newSettings now }, [])

/-- AmbiencePlayer.fetchPreferences: if there is no user session it returns at once;
otherwise it selects track_settings where user_id matches with maybeSingle, which
yields the row when exactly one matches, null data when none does, and an error when
several do.  Only a successfully fetched document replaces the current in-memory
settings.  The second component collects emitted messages. -/
def fetchPreferences (db : Db) (user : Option String) (current : TrackSettings)
    (backendFails : Bool) : TrackSettings × List String :=
  match user with
  | none => (current, [])
  | some uid =>
    if backendFails then (current, ["Error fetching preferences"])
    else
      match db.user_preferences.filter (fun r => r.user_id == uid) with
      | [] => (current, [])
      | [row] => (row.track_settings, [])
      | _ => (current, ["Error fetching preferences"])

/-- The tracks INSERT of TrackUploader.handleUpload, gated by the RLS policy
"Admins can insert tracks" WITH CHECK (public.has_role(auth.uid(), 'admin')):
a caller failing the check gets a row-level security error and no row. -/
def insertTrack (db : Db) (caller : Option String) (newId name fileUrl : String)
    (now : Nat) : Except String Db :=
  match caller with
  | none => Except.error "row-level security policy violation"
  | some uid =>
    if rlsAdmin db (some uid) then
      Except.ok { db with tracks := db.tracks ++ [⟨newId, name, fileUrl, uid, now⟩] }
    else Except.error "row-level security policy violation"

/-- AmbiencePlayer.handleDeleteTrack: DELETE FROM tracks WHERE id = id.  The RLS
policy "Admins can delete tracks" USING (public.has_role(auth.uid(), 'admin'))
filters the rows a DELETE may touch, so for a caller failing the check the DELETE
silently affects zero rows and reports no error; the handler then shows the
'Track deleted' toast and refetches the track list.  Only a backend failure takes
the catch branch.  No storage-bucket call is made.  The second component collects
the toast messages shown. -/
def handleDeleteTrack (db : Db) (caller : Option String) (id : String)
    (backendFails : Bool) : Db × List String :=
  if backendFails then (db, ["Error: Failed to delete track."])
  else
    ({ db with tracks := db.tracks.filter fun t => !(t.id == id && rlsAdmin db caller) },
     ["Track deleted"])

/-- Local state of one AudioTrack component: the enabled checkbox, the volume
slider (0-100, step 1), and whether the audio element is playing. -/
structure AudioState where
  enabled : Bool
  volume : Nat
  playing : Bool
deriving DecidableEq, Repr

/-- AudioTrack effect on [enabled, volume]: if (enabled && volume > 0) play()
else pause(); the play/pause listeners set isPlaying accordingly. -/
def playPauseEffect (s : AudioState) : AudioState :=
  if s.enabled && decide (s.volume > 0) then { s with playing := true }
  else { s with playing := false }

/-- A user interaction on one AudioTrack control: dragging the volume slider or
toggling the enabled checkbox. -/
inductive TrackEvent where
  | setVolume : Nat → TrackEvent
  | setEnabled : Bool → TrackEvent
deriving DecidableEq, Repr

/-- State transition of AudioTrack: the setState from the interaction followed by
the play/pause effect that runs on [enabled, volume]. -/
def applyEvent (s : AudioState) (e : TrackEvent) : AudioState :=
  match e with
  | TrackEvent.setVolume v => playPauseEffect { s with volume := v }
  | TrackEvent.setEnabled b => playPauseEffect { s with enabled := b }

/-! Helper lemmas about the JS-object operations and the preference upsert. -/

theorem objGet_objSet_self (m : TrackSettings) (id : String) (v : TrackSetting) :
    objGet (objSet m id v) id = some v := by
  induction m with
  | nil => simp [objGet, objSet]
  | cons p ps ih =>
    by_cases hp : p.1 = id
    · simp [objGet, objSet, hp]
    · have hbid : (p.1 == id) = false := by simp [hp]
      simp only [objSet, hbid, Bool.false_eq_true, if_false]
      simpa [objGet, List.find?_cons, hbid] using ih

theorem objGet_objSet_ne (m : TrackSettings) (id j : String) (v : TrackSetting) (h : j ≠ id) :
    objGet (objSet m id v) j = objGet m j := by
  have hij : (id == j) = false := by
    simp only [beq_eq_false_iff_ne]
    exact fun hh => h hh.symm
  induction m with
  | nil => simp [objGet, objSet, hij]
  | cons p ps ih =>
    by_cases hp : p.1 = id
    · have hbid : (p.1 == id) = true := by simp [hp]
      have hbj : (p.1 == j) = false := by
        simp only [beq_eq_false_iff_ne, hp]
        exact fun hh => h hh.symm
      simp only [objSet, hbid, if_true]
      simp [objGet, List.find?_cons, hij, hbj]
    · have hbid : (p.1 == id) = false := by simp [hp]
      simp only [objSet, hbid, Bool.false_eq_true, if_false]
      by_cases hj : p.1 = j
      · have hbj : (p.1 == j) = true := by simp [hj]
        simp [objGet, List.find?_cons, hbj]
      · have hbj : (p.1 == j) = false := by simp [hj]
        simpa [objGet, List.find?_cons, hbj] using ih

theorem upsertPref_filter (rows : List PrefRow) (uid : String) (m : TrackSettings) (now : Nat)
    (h : (rows.filter (fun r => r.user_id == uid)).length ≤ 1) :
    (upsertPref rows uid m now).filter (fun r => r.user_id == uid) = [⟨uid, m, now⟩] := by
  induction rows with
  | nil => simp [upsertPref]
  | cons r rs ih =>
    by_cases hr : r.user_id = uid
    · have hb : (r.user_id == uid) = true := by simp [hr]
      have hrest : rs.filter (fun r => r.user_id == uid) = [] := by
        simp only [List.filter_cons, hb, if_true, List.length_cons] at h
        exact List.length_eq_zero.mp (Nat.le_zero.mp (Nat.le_of_succ_le_succ h))
      simp [upsertPref, hb, hrest, hr]
    · have hb : (r.user_id == uid) = false := by simp [hr]
      simp only [List.filter_cons, hb, Bool.false_eq_true, if_false] at h
      simp only [upsertPref, hb, Bool.false_eq_true, if_false]
      simp only [List.filter_cons, hb, Bool.false_eq_true, if_false]
      exact ih h

/-- Concrete database used by witnesses and counterexamples: alice is an admin,
bob an ordinary user, one uploaded track with its stored audio object, and bob
has one saved preference entry for it. -/
def exDb : Db :=
  { auth_users := [⟨"u-alice", "alice@example.com"⟩, ⟨"u-bob", "bob@example.com"⟩],
    user_roles := [⟨"u-alice", AppRole.user⟩, ⟨"u-alice", AppRole.admin⟩,
      ⟨"u-bob", AppRole.user⟩],
    profiles := [⟨"u-alice", "alice"⟩, ⟨"u-bob", "bob"⟩],
    tracks := [⟨"t-rain", "Rain", "https://storage/tracks/1700000000-abc.mp3", "u-alice", 1⟩],
    user_preferences := [⟨"u-bob", [("t-rain", ⟨30, true⟩)], 5⟩],
    storage_objects := ["1700000000-abc.mp3"] }

/-- C1 fails as stated: when the admin alice deletes the only track, the track row
disappears from the tracks table, but the stored audio object is still in the
storage bucket, because handleDeleteTrack issues no storage removal. -/
theorem C1_counterexample :
    (handleDeleteTrack exDb (some "u-alice") "t-rain" false).1.tracks = []
    ∧ "1700000000-abc.mp3"
        ∈ (handleDeleteTrack exDb (some "u-alice") "t-rain" false).1.storage_objects := by
  decide

/-- C1 amended: for an admin caller, the Track Library Delete operation
(handleDeleteTrack) removes the track row from the tracks table but leaves the
storage bucket untouched; the track's stored audio object is not removed. -/
theorem C1_delete_removes_row_only (db : Db) (caller : Option String) (id : String)
    (h : rlsAdmin db caller = true) :
    (handleDeleteTrack db caller id false).1.tracks = db.tracks.filter (fun t => !(t.id == id))
    ∧ (handleDeleteTrack db caller id false).1.storage_objects = db.storage_objects := by
  unfold handleDeleteTrack
  simp [h]

/-- Witness for C1_delete_removes_row_only at the concrete database. -/
theorem C1_witness :
    (handleDeleteTrack exDb (some "u-alice") "t-rain" false).1.tracks
        = exDb.tracks.filter (fun t => !(t.id == "t-rain"))
    ∧ (handleDeleteTrack exDb (some "u-alice") "t-rain" false).1.storage_objects
        = exDb.storage_objects :=
  C1_delete_removes_row_only exDb (some "u-alice") "t-rain" (by decide)

/-- C2 fails as stated for Delete: when the non-admin bob invokes Delete on the
track, the row-level DELETE policy silently filters out every row, so no row is
removed but no authorization error is raised either - the handler takes its
success path and shows the 'Track deleted' toast. -/
theorem C2_counterexample :
    (handleDeleteTrack exDb (some "u-bob") "t-rain" false).1 = exDb
    ∧ (handleDeleteTrack exDb (some "u-bob") "t-rain" false).2 = ["Track deleted"] := by
  decide

/-- C2 amended: for every caller lacking the admin role, Create (insert into
tracks) fails with a row-level security error and no row is created, while Delete
(delete from tracks) removes no row but completes without an authorization error,
reporting success. -/
theorem C2_nonadmin_mutations (db : Db) (caller : Option String)
    (newId name fileUrl : String) (now : Nat) (id : String)
    (h : rlsAdmin db caller = false) :
    insertTrack db caller newId name fileUrl now
        = Except.error "row-level security policy violation"
    ∧ (handleDeleteTrack db caller id false).1 = db
    ∧ (handleDeleteTrack db caller id false).2 = ["Track deleted"] := by
  refine ⟨?_, ?_, rfl⟩
  · unfold insertTrack
    cases caller with
    | none => rfl
    | some uid => simp [h]
  · unfold handleDeleteTrack
    simp [h]

/-- Witness for C2_nonadmin_mutations: bob, who only holds the 'user' role. -/
theorem C2_witness :
    insertTrack exDb (some "u-bob") "t-new" "Wind" "https://storage/tracks/w.mp3" 9
        = Except.error "row-level security policy violation"
    ∧ (handleDeleteTrack exDb (some "u-bob") "t-rain" false).1 = exDb
    ∧ (handleDeleteTrack exDb (some "u-bob") "t-rain" false).2 = ["Track deleted"] :=
  C2_nonadmin_mutations exDb (some "u-bob") "t-new" "Wind" "https://storage/tracks/w.mp3" 9
    "t-rain" (by decide)

/-- C3: for every user and sparse track-settings map, savePreferences followed by
fetchPreferences returns exactly the saved map, given the user_id uniqueness
constraint of user_preferences (at most one row per user) and no interleaved
writer between the two sequentially composed calls. -/
theorem C3_save_fetch_roundtrip (db : Db) (uid : String) (m : TrackSettings) (now : Nat)
    (cur : TrackSettings)
    (h : (db.user_preferences.filter (fun r => r.user_id == uid)).length ≤ 1) :
    (fetchPreferences (savePreferences db (some uid) m now false).1 (some uid) cur false).1
      = m := by
  have hsave : (savePreferences db (some uid) m now false).1
      = { db with user_preferences := upsertPref db.user_preferences uid m now } := rfl
  rw [hsave]
  simp only [fetchPreferences, upsertPref_filter db.user_preferences uid m now h,
    Bool.false_eq_true, if_false]

/-- Witness for C3_save_fetch_roundtrip: bob saves a two-track map and fetches it
back unchanged. -/
theorem C3_witness :
    (fetchPreferences
        (savePreferences exDb (some "u-bob")
          [("t-rain", ⟨80, true⟩), ("t-wind", ⟨10, false⟩)] 7 false).1
        (some "u-bob") [] false).1
      = [("t-rain", ⟨80, true⟩), ("t-wind", ⟨10, false⟩)] :=
  C3_save_fetch_roundtrip exDb "u-bob" [("t-rain", ⟨80, true⟩), ("t-wind", ⟨10, false⟩)] 7 []
    (by decide)

/-- C4: granting admin via make_user_admin twice for the same existing user is
idempotent - the second invocation changes nothing - and leaves exactly one
(user, admin) row, given the UNIQUE (user_id, role) constraint (at most one such
row beforehand). -/
theorem C4_make_user_admin_idempotent (db : Db) (email : String) (u : AuthUser)
    (hu : db.auth_users.find? (fun a => a.email == email) = some u)
    (hun : (db.user_roles.filter
        (fun row => row.user_id == u.id && row.role == AppRole.admin)).length ≤ 1) :
    make_user_admin (make_user_admin db email) email = make_user_admin db email
    ∧ ((make_user_admin db email).user_roles.filter
        (fun row => row.user_id == u.id && row.role == AppRole.admin)).length = 1 := by
  by_cases hadm : db.user_roles.any
      (fun row => row.user_id == u.id && row.role == AppRole.admin) = true
  · have h1 : make_user_admin db email = db := by
      simp only [make_user_admin, hu, hadm, if_true]
    refine ⟨by simp only [h1], ?_⟩
    rw [h1]
    have hpos : 0 < (db.user_roles.filter
        (fun row => row.user_id == u.id && row.role == AppRole.admin)).length := by
      simp only [List.any_eq_true] at hadm
      obtain ⟨row, hrow, hp⟩ := hadm
      have hmem : row ∈ db.user_roles.filter
          (fun row => row.user_id == u.id && row.role == AppRole.admin) :=
        List.mem_filter.mpr ⟨hrow, hp⟩
      exact List.length_pos.mpr (List.ne_nil_of_mem hmem)
    exact Nat.le_antisymm hun hpos
  · have hadm' : db.user_roles.any
        (fun row => row.user_id == u.id && row.role == AppRole.admin) = false :=
      Bool.not_eq_true _ ▸ Bool.of_not_eq_true hadm
    have h1 : make_user_admin db email
        = { db with user_roles := db.user_roles ++ [⟨u.id, AppRole.admin⟩] } := by
      simp only [make_user_admin, hu, hadm', Bool.false_eq_true, if_false]
    have hfilter : db.user_roles.filter
        (fun row => row.user_id == u.id && row.role == AppRole.admin) = [] := by
      simp only [List.any_eq_false] at hadm'
      exact List.filter_eq_nil_iff.mpr hadm'
    have hagain : (db.user_roles ++ [(⟨u.id, AppRole.admin⟩ : RoleRow)]).any
        (fun row => row.user_id == u.id && row.role == AppRole.admin) = true := by
      simp [List.any_append]
    constructor
    · rw [h1]
      simp only [make_user_admin, hu, hagain, if_true]
    · rw [h1]
      simp [List.filter_append, hfilter]

/-- Witness for C4_make_user_admin_idempotent: bob is granted admin twice. -/
theorem C4_witness :
    make_user_admin (make_user_admin exDb "bob@example.com") "bob@example.com"
        = make_user_admin exDb "bob@example.com"
    ∧ ((make_user_admin exDb "bob@example.com").user_roles.filter
        (fun row => row.user_id == "u-bob" && row.role == AppRole.admin)).length = 1 :=
  C4_make_user_admin_idempotent exDb "bob@example.com" ⟨"u-bob", "bob@example.com"⟩
    (by decide) (by decide)

/-- C5: has_role returns true exactly when the (user, role) pair is present in
user_roles, and for a user id absent from the table it returns false; the model
is a total pure function, so it has no side effects and never raises. -/
theorem C5_has_role_spec (roles : List RoleRow) (uid : String) (r : AppRole) :
    (has_role roles uid r = true ↔ ∃ row ∈ roles, row.user_id = uid ∧ row.role = r)
    ∧ ((∀ row ∈ roles, row.user_id ≠ uid) → has_role roles uid r = false) := by
  constructor
  · unfold has_role
    simp [List.any_eq_true, Bool.and_eq_true, beq_iff_eq]
  · intro habs
    unfold has_role
    simp only [List.any_eq_false]
    intro row hrow
    simp [habs row hrow]

/-- Witness for C5_has_role_spec: an absent user id yields false. -/
theorem C5_witness : has_role exDb.user_roles "u-carol" AppRole.admin = false :=
  (C5_has_role_spec exDb.user_roles "u-carol" AppRole.admin).2 (by decide)

/-- C6: on a volume or enabled transition the new map equals the previous map
with only the touched track's entry replaced: the entry merges the new field with
the track's previous other field, every other track's entry is preserved
unchanged, and a track with no prior entry defaults to enabled=true on a volume
change and volume=50 on an enabled change. -/
theorem C6_merge_single_entry (prev : TrackSettings) (id : String) (v : Nat) (b : Bool) :
    objGet (handleVolumeChange prev id v) id
        = some ⟨v, ((objGet prev id).map TrackSetting.enabled).getD true⟩
    ∧ objGet (handleEnabledChange prev id b) id
        = some ⟨((objGet prev id).map TrackSetting.volume).getD 50, b⟩
    ∧ (∀ j, j ≠ id →
        objGet (handleVolumeChange prev id v) j = objGet prev j
        ∧ objGet (handleEnabledChange prev id b) j = objGet prev j)
    ∧ (objGet prev id = none →
        objGet (handleVolumeChange prev id v) id = some ⟨v, true⟩
        ∧ objGet (handleEnabledChange prev id b) id = some ⟨50, b⟩) := by
  refine ⟨objGet_objSet_self prev id _, objGet_objSet_self prev id _,
    fun j hj => ⟨objGet_objSet_ne prev id j _ hj, objGet_objSet_ne prev id j _ hj⟩,
    fun hn => ?_⟩
  constructor
  · rw [handleVolumeChange, hn, objGet_objSet_self]
    rfl
  · rw [handleEnabledChange, hn, objGet_objSet_self]
    rfl

/-- Witness for C6_merge_single_entry: a volume change on an untouched track
creates its entry with enabled defaulting to true and preserves the other entry. -/
theorem C6_witness :
    objGet (handleVolumeChange [("t-rain", ⟨30, true⟩)] "t-wind" 70) "t-rain"
        = some ⟨30, true⟩
    ∧ objGet (handleVolumeChange [("t-rain", ⟨30, true⟩)] "t-wind" 70) "t-wind"
        = some ⟨70, true⟩ := by
  have h := C6_merge_single_entry [("t-rain", ⟨30, true⟩)] "t-wind" 70 false
  exact ⟨(h.2.2.1 "t-rain" (by decide)).1, (h.2.2.2 (by decide)).1⟩

/-- C7 fails as stated: for a user whose stored document is empty, merely
rendering the track "t-rain" runs the AudioTrack mount effects, which invoke the
volume and enabled handlers with the initial values and thereby create the key
for the track - with the default entry {volume := 50, enabled := false} - before
the user ever touches the track. -/
theorem C7_counterexample :
    objGet ([] : TrackSettings) "t-rain" = none
    ∧ objGet (mountAudioTrack [] "t-rain") "t-rain" = some ⟨50, false⟩ := by
  decide

/-- C7 amended: for a track id absent from the preference map, the UI layer
renders volume=50 and enabled=false, and a new user's stored document starts out
empty (column DEFAULT); but the document omits the key only until the track is
first rendered for that user: the AudioTrack mount effects invoke the handlers
with the initial values, creating the entry {volume := 50, enabled := false} for
the previously absent id while preserving every other track's entry. -/
theorem C7_ui_defaults (m : TrackSettings) (id : String) (db : Db) (u : AuthUser)
    (meta : Option String) (now : Nat) :
    (objGet m id = none → initialVolume m id = 50 ∧ initialEnabled m id = false)
    ∧ (handle_new_user db u meta now).user_preferences
        = db.user_preferences ++ [⟨u.id, [], now⟩]
    ∧ (objGet m id = none → objGet (mountAudioTrack m id) id = some ⟨50, false⟩)
    ∧ (∀ j, j ≠ id → objGet (mountAudioTrack m id) j = objGet m j) := by
  refine ⟨fun hn => ?_, rfl, fun hn => ?_, fun j hj => ?_⟩
  · rw [initialVolume, initialEnabled, hn]
    exact ⟨rfl, rfl⟩
  · have hv : objGet (handleVolumeChange m id (initialVolume m id)) id
        = some ⟨initialVolume m id, true⟩ := by
      rw [handleVolumeChange, hn, objGet_objSet_self]
      rfl
    rw [mountAudioTrack, handleEnabledChange, hv, objGet_objSet_self,
      initialVolume, initialEnabled, hn]
    rfl
  · rw [mountAudioTrack, handleEnabledChange, handleVolumeChange,
      objGet_objSet_ne _ id j _ hj, objGet_objSet_ne _ id j _ hj]

/-- Witness for C7_ui_defaults on a concrete map missing the id "t-wind":
rendering creates its default entry and preserves the entry for "t-rain". -/
theorem C7_witness :
    (initialVolume [("t-rain", ⟨30, true⟩)] "t-wind" = 50
      ∧ initialEnabled [("t-rain", ⟨30, true⟩)] "t-wind" = false)
    ∧ objGet (mountAudioTrack [("t-rain", ⟨30, true⟩)] "t-wind") "t-wind"
        = some ⟨50, false⟩
    ∧ objGet (mountAudioTrack [("t-rain", ⟨30, true⟩)] "t-wind") "t-rain"
        = some ⟨30, true⟩ := by
  have h := C7_ui_defaults [("t-rain", ⟨30, true⟩)] "t-wind" exDb
    ⟨"u-carol", "carol@example.com"⟩ none 3
  exact ⟨h.1 (by decide), h.2.2.1 (by decide), h.2.2.2 "t-rain" (by decide)⟩

/-- Audio playback invariant of playPauseEffect: afterwards the element is
playing exactly when enabled is set and the volume is positive, and the effect
does not change enabled or volume. -/
theorem playPauseEffect_spec (t : AudioState) :
    ((playPauseEffect t).playing = true ↔ t.enabled = true ∧ 0 < t.volume)
    ∧ (playPauseEffect t).enabled = t.enabled
    ∧ (playPauseEffect t).volume = t.volume := by
  by_cases he : t.enabled = true
  · by_cases hv : 0 < t.volume
    · simp [playPauseEffect, he, hv]
    · simp [playPauseEffect, he, hv]
  · simp [playPauseEffect, Bool.not_eq_true _ ▸ he]

/-- C8: after any AudioTrack transition (volume drag or enabled toggle followed
by the play/pause effect), the audio element is playing if and only if enabled is
true and volume is greater than 0. -/
theorem C8_playing_iff (s : AudioState) (e : TrackEvent) :
    (applyEvent s e).playing = true
      ↔ ((applyEvent s e).enabled = true ∧ 0 < (applyEvent s e).volume) := by
  cases e with
  | setVolume v =>
    have h := playPauseEffect_spec { s with volume := v }
    simpa only [applyEvent, h.2.1, h.2.2] using h.1
  | setEnabled b =>
    have h := playPauseEffect_spec { s with enabled := b }
    simpa only [applyEvent, h.2.1, h.2.2] using h.1

/-- C9: handleDeleteTrack never touches the user_preferences table - every stored
preference document, including any entry for the deleted track id, survives
unchanged - and for an admin caller with no backend failure the refetched track
list no longer contains the deleted id, so readers driven by the track list never
consult the orphaned entry. -/
theorem C9_delete_preserves_preferences (db : Db) (caller : Option String) (id : String)
    (backendFails : Bool) :
    (handleDeleteTrack db caller id backendFails).1.user_preferences = db.user_preferences
    ∧ (rlsAdmin db caller = true →
        id ∉ ((handleDeleteTrack db caller id false).1.tracks.map TrackRow.id)) := by
  constructor
  · unfold handleDeleteTrack
    cases backendFails with
    | false => rfl
    | true => rfl
  · intro hadm
    unfold handleDeleteTrack
    simp only [Bool.false_eq_true, if_false, hadm, Bool.and_true, List.mem_map,
      List.mem_filter]
    rintro ⟨t, ⟨_, hkeep⟩, hid⟩
    simp [hid] at hkeep

/-- Witness for C9_delete_preserves_preferences: alice deletes the track bob has
a preference entry for; bob's document survives verbatim and the id disappears
from the track list. -/
theorem C9_witness :
    (handleDeleteTrack exDb (some "u-alice") "t-rain" false).1.user_preferences
        = exDb.user_preferences
    ∧ "t-rain" ∉ ((handleDeleteTrack exDb (some "u-alice") "t-rain" false).1.tracks.map
        TrackRow.id) := by
  have h := C9_delete_preserves_preferences exDb (some "u-alice") "t-rain" false
  exact ⟨h.1, h.2 (by decide)⟩

/-- C10: with no authenticated session, savePreferences performs no write and
emits no error or notification, and fetchPreferences performs no read: both
return their inputs unchanged with no emitted message, whatever the backend
would have done. -/
theorem C10_no_session_noop (db : Db) (m : TrackSettings) (now : Nat)
    (backendFails : Bool) (cur : TrackSettings) :
    savePreferences db none m now backendFails = (db, [])
    ∧ fetchPreferences db none cur backendFails = (cur, []) :=
  ⟨rfl, rfl⟩

end AmbianceHub
